/-
Verification of the QSimpleUpdater download engine (src/src/Downloader.cpp)
against its natural-language specification.

The C++ class `Downloader` is shallowly embedded: its member variables form
the record `DState`, every side effect (network, filesystem, UI, process) is
recorded as an `Act` in an action trace, and each Qt slot becomes a Lean
function from the pre-state and the inbound event data to the post-state and
the emitted trace.  Qt string operations (`indexOf`, `mid`, `left`,
`remove`, `QFileInfo::fileName`) are modelled on `List Char`.
-/
import Mathlib

namespace Downloader

/-- A staging artifact (`QSaveFile *m_saveFile`): whether `open` succeeded
and how many bytes have been written so far. -/
structure SaveFile where
  isOpen : Bool
  written : Nat
deriving Repr, DecidableEq

/-- The member variables of the `Downloader` class that the verified slots
read or write. -/
structure DState where
  /-- `m_url`: the AppCast identifier reported in `downloadFinished`. -/
  urlId : String
  /-- `m_fileName` as a character list. -/
  fileName : List Char
  /-- `m_startTime` (seconds since epoch, `qint64`). -/
  startTime : Int
  /-- `m_useCustomProcedures`. -/
  useCustomProcedures : Bool
  /-- `m_mandatoryUpdate`. -/
  mandatoryUpdate : Bool
  /-- `m_downloadDir` path. -/
  downloadDir : String
  /-- `m_saveFile` (null modelled as `none`). -/
  saveFile : Option SaveFile
deriving Repr, DecidableEq

/-- One observable side effect of a slot, in program order. -/
inductive Act where
  /-- progress bar / labels reset at the top of `startDownload`. -/
  | uiReset
  /-- `m_saveFile->cancelWriting()`: discard the staged partial content. -/
  | cancelWriting
  /-- `delete m_saveFile`. -/
  | deleteSaveFile
  /-- `m_manager->get(request)` for the given URL. -/
  | issueRequest (url : String)
  /-- `m_downloadDir.mkpath(".")` when the directory is missing. -/
  | ensureDownloadDir
  /-- `showNormal()`. -/
  | showUI
  /-- `new QSaveFile(...)` followed by `open(WriteOnly)`. -/
  | openFileCall
  /-- `m_saveFile->write(...)` of the given byte count. -/
  | writeData (bytes : Nat)
  /-- `m_saveFile->commit()`: atomically promote the staging artifact. -/
  | commitCall
  /-- `emit downloadFinished(url, filepath)` — the only signal the class
  emits to its host. -/
  | emitDownloadFinished (urlId : String) (path : String)
  /-- `qWarning() << ...` (console log, not a host event). -/
  | warn (msg : String)
  /-- `m_reply->close()`. -/
  | closeReply
  /-- `openButton->setEnabled/setVisible`. -/
  | uiOpenButton (enabled : Bool)
  /-- `timeLabel->setText(...)`. -/
  | uiTimeLabel
  /-- call into `openDownload()` (launches the installer). -/
  | openDownloadCall
  /-- `hide()` / `setVisible(false)`. -/
  | hideUI
  /-- `m_reply->abort()`. -/
  | abortReply
  /-- `exit(0)`: terminate the hosting process. -/
  | exitProcess
  /-- a modal confirmation dialog was shown (`box.exec()`). -/
  | promptUser
deriving Repr, DecidableEq

/-- Events delivered to the host application: the class communicates with its
host only through Qt signals, and `emit downloadFinished` is the single
`emit` statement in `Downloader.cpp`. -/
def isHostEvent : Act → Bool
  | .emitDownloadFinished _ _ => true
  | _ => false

/-- Acts that can change what is stored at the final destination path.  Per
the `QSaveFile` contract only `commit()` touches the destination;
`cancelWriting()` and destruction only remove the temporary file. -/
def touchesFinalPath : Act → Bool
  | .commitCall => true
  | _ => false

/-- `QDir::filePath`: join the download directory with the file name. -/
def dirFilePath (dir : String) (fn : List Char) : String :=
  dir ++ "/" ++ String.mk fn

/-! ### QString helpers (on `List Char`) -/

/-- `QString::indexOf(QChar)`: index of the first occurrence of `c`, `none`
for Qt's `-1`. -/
def charIndexOf (s : List Char) (c : Char) : Option Nat :=
  s.findIdx? (· = c)

/-- `QString::indexOf(QChar, from)`: first occurrence of `c` at an index
`≥ start`, as an index into the whole string. -/
def charIndexOfFrom (s : List Char) (c : Char) (start : Nat) : Option Nat :=
  (charIndexOf (s.drop start) c).map (· + start)

/-- `QString::indexOf(QString)`: index of the first occurrence of the
pattern `pat` as a contiguous substring. -/
def subIndexOf : List Char → List Char → Option Nat
  | [], pat => if pat = [] then some 0 else none
  | x :: xs, pat =>
    if pat.isPrefixOf (x :: xs) then some 0
    else (subIndexOf xs pat).map (· + 1)

/-- `QFileInfo::fileName()`: the component after the last `/`. -/
def lastPathSegment (s : List Char) : List Char :=
  (s.reverse.takeWhile (· ≠ '/')).reverse

/-! ### setFileName (Downloader.cpp lines 157-168) -/

/-- The fallback filename `"QSU_Update.bin"`. -/
def DEFAULT_FILENAME : List Char := "QSU_Update.bin".toList

/-- `Downloader::setFileName`: remove every `"` and `;`, store the result,
fall back to the default name when the result is empty. -/
def setFileNameCore (file : List Char) : List Char :=
  let sanitized := (file.filter (· ≠ '"')).filter (· ≠ ';')
  if sanitized = [] then DEFAULT_FILENAME else sanitized

/-- `Downloader::setFileName` acting on the object state. -/
def setFileName (st : DState) (file : List Char) : DState :=
  { st with fileName := setFileNameCore file }

/-! ### metaDataChanged (Downloader.cpp lines 404-453) -/

/-- The token `"filename="` searched for in the Content-Disposition value. -/
def FILENAME_TOKEN : List Char := "filename=".toList

/-- The slicing that `metaDataChanged` performs on the characters following
`filename=`: a leading quote takes everything up to the next quote
(`indexOf('"', 1)` and `mid(1, endQuotePos - 1)`); otherwise the value is
cut at the first `;`, or — only when no `;` occurs at all — at the first
space, and the cut is skipped when `endPos ≤ 0`. -/
def cutFilenameValue (filename : List Char) : List Char :=
  if filename.head? = some '"' then
    match charIndexOfFrom filename '"' 1 with
    | some endQuotePos =>
      if endQuotePos > 0 then (filename.drop 1).take (endQuotePos - 1)
      else filename
    | none => filename
  else
    let endPos :=
      match charIndexOf filename ';' with
      | some p => some p
      | none => charIndexOf filename ' '
    match endPos with
    | some p => if p > 0 then filename.take p else filename
    | none => filename

/-- Filename resolution from a Content-Disposition header value, exactly as
`metaDataChanged` performs it: locate `filename=`, slice the value, keep
only the final path segment.  `none` when the token is absent (the slot
then leaves the state untouched). -/
def extractDispositionFilename (contentDisposition : List Char) :
    Option (List Char) :=
  match subIndexOf contentDisposition FILENAME_TOKEN with
  | none => none
  | some pos =>
    let filename := contentDisposition.drop (pos + 9)
    some (lastPathSegment (cutFilenameValue filename))

/-- `Downloader::metaDataChanged`: `none` models an absent/invalid
Content-Disposition header, in which case nothing happens; otherwise the
extracted filename (when the token is present) is stored via
`setFileName`. -/
def metaDataChanged (st : DState) (contentDisposition : Option (List Char)) :
    DState :=
  match contentDisposition with
  | none => st
  | some cd =>
    match extractDispositionFilename cd with
    | none => st
    | some fn => setFileName st fn

/-! ### startDownload (Downloader.cpp lines 110-152) -/

/-- `Downloader::startDownload(url)`: reset the UI, discard any existing
staging artifact (`cancelWriting` + `delete`), issue the GET request,
record the start time, ensure the download directory exists, show the
dialog.  `now` is `QDateTime::currentDateTime().toSecsSinceEpoch()`.
`m_fileName` is not touched. -/
def startDownload (st : DState) (url : String) (now : Int) :
    DState × List Act :=
  let closeActs : List Act :=
    match st.saveFile with
    | some _ => [.cancelWriting, .deleteSaveFile]
    | none => []
  ({ st with saveFile := none, startTime := now },
   .uiReset :: closeActs ++ [.issueRequest url, .ensureDownloadDir, .showUI])

/-! ### processReceivedData (Downloader.cpp lines 338-367) -/

/-- `Downloader::processReceivedData`.  `redirect` is the
`RedirectionTargetAttribute` (`none` when empty), `openOk` tells whether
`QSaveFile::open(WriteOnly)` would succeed, `avail` is
`m_reply->bytesAvailable()`.  A redirect restarts the download against the
new URL; with an empty filename the chunk is dropped; the staging artifact
is opened lazily, and an open failure deletes the fresh object and returns
without any further effect. -/
def processReceivedData (st : DState) (redirect : Option String)
    (openOk : Bool) (avail : Nat) (now : Int) : DState × List Act :=
  match redirect with
  | some u => startDownload st u now
  | none =>
    if st.fileName = [] then (st, [])
    else
      match st.saveFile with
      | none =>
        if openOk then
          ({ st with saveFile := some ⟨true, avail⟩ },
           [.openFileCall, .writeData avail])
        else
          (st, [.openFileCall, .warn "Failed to open file for writing",
                .deleteSaveFile])
      | some sf =>
        if sf.isOpen then
          ({ st with saveFile := some ⟨sf.isOpen, sf.written + avail⟩ },
           [.writeData avail])
        else (st, [])

/-! ### finished (Downloader.cpp lines 178-231) -/

/-- The terminal `m_reply` as `finished()` observes it: `error` is `none`
for `QNetworkReply::NoError` and `some description` otherwise;
`bytesAvailable` is whatever data is still unread. -/
structure Reply where
  error : Option String
  bytesAvailable : Nat
deriving Repr, DecidableEq

/-- `Downloader::finished`.  On a transport error: discard the staging
artifact (if any) and return after logging a warning.  Otherwise: flush
remaining bytes, `commit()` the artifact (result `commitOk`), emit
`downloadFinished` on success or log a warning on failure, close the
reply, update the UI, auto-open the download unless custom install
procedures are enabled, and hide the dialog. -/
def finished (st : DState) (r : Reply) (commitOk : Bool) :
    DState × List Act :=
  match r.error with
  | some desc =>
    match st.saveFile with
    | some _ =>
      ({ st with saveFile := none },
       [.cancelWriting, .deleteSaveFile, .warn ("Download error: " ++ desc)])
    | none => (st, [.warn ("Download error: " ++ desc)])
  | none =>
    let (st1, writeActs) :=
      if r.bytesAvailable > 0 then
        match st.saveFile with
        | some sf =>
          if sf.isOpen then
            ({ st with saveFile := some ⟨sf.isOpen, sf.written + r.bytesAvailable⟩ },
             [Act.writeData r.bytesAvailable])
          else (st, [])
        | none => (st, [])
      else (st, [])
    let (fileSuccess, st2, commitActs) :=
      match st1.saveFile with
      | some _ => (commitOk, { st1 with saveFile := none },
                   [Act.commitCall, Act.deleteSaveFile])
      | none => (false, st1, [])
    let notifyActs : List Act :=
      if fileSuccess then
        [.emitDownloadFinished st2.urlId (dirFilePath st2.downloadDir st2.fileName)]
      else [.warn "Failed to save downloaded file"]
    let installActs : List Act :=
      if fileSuccess && !st2.useCustomProcedures then [.openDownloadCall] else []
    (st2, writeActs ++ commitActs ++ notifyActs ++
          [.closeReply, .uiOpenButton fileSuccess, .uiTimeLabel] ++
          installActs ++ [.hideUI])

/-! ### cancelDownload (Downloader.cpp lines 281-333) -/

/-- `Downloader::cancelDownload`.  `inFlight` is `!m_reply->isFinished()`;
`accepts` is how the user would answer the confirmation (clicking "Quit"
resp. "Yes").  In-flight transfers prompt the user; a mandatory update
answered with "Quit" hides the dialog, aborts the reply and calls
`exit(0)`; an optional one answered "Yes" hides and aborts; a declined
prompt does nothing further.  With the transfer already finished a
mandatory update hides and exits, an optional one only hides. -/
def cancelDownload (st : DState) (inFlight : Bool) (accepts : Bool) :
    List Act :=
  if inFlight then
    if st.mandatoryUpdate then
      .promptUser :: (if accepts then [.hideUI, .abortReply, .exitProcess] else [])
    else
      .promptUser :: (if accepts then [.hideUI, .abortReply] else [])
  else
    if st.mandatoryUpdate then [.hideUI, .exitProcess] else [.hideUI]

/-! ### round / calculateSizes (Downloader.cpp lines 374-399, 547-550) -/

/-- `Downloader::round`: round to two decimal places, half away from zero
via `roundf`; the arguments it actually receives are integral, where the
Mathlib `round` (half-up) agrees. -/
def roundTwo (x : ℚ) : ℚ := (round (x * 100) : ℚ) / 100

/-- The size units the dialog renders. -/
inductive SizeUnit where
  | bytes
  | kb
  | mb
deriving Repr, DecidableEq

/-- The `totalSize` computation of `calculateSizes`: note `total / 1024`
and `total / 1048576` are C++ `qint64` divisions (truncation), applied
before `round`. -/
def calculateSizesTotal (total : Int) : SizeUnit × ℚ :=
  if total < 1024 then (.bytes, (total : ℚ))
  else if total < 1048576 then (.kb, roundTwo ((Int.tdiv total 1024 : Int) : ℚ))
  else (.mb, roundTwo ((Int.tdiv total 1048576 : Int) : ℚ))

/-- The `receivedSize` computation of `calculateSizes`: same truncating
divisions, without the `round` call. -/
def calculateSizesReceived (received : Int) : SizeUnit × ℚ :=
  if received < 1024 then (.bytes, (received : ℚ))
  else if received < 1048576 then (.kb, ((Int.tdiv received 1024 : Int) : ℚ))
  else (.mb, ((Int.tdiv received 1048576 : Int) : ℚ))

/-! ### updateProgress (Downloader.cpp lines 459-476) -/

/-- `Downloader::updateProgress`: with `total > 0` the progress bar shows
the percentage `(received * 100) / total` and the size/time labels are
refreshed; otherwise the bar is put in indeterminate mode
(`setMaximum(0)`, `setValue(-1)`), modelled as `none`. -/
def updateProgress (received total : Int) : Option Int :=
  if total > 0 then some (Int.tdiv (received * 100) total) else none

/-! ### calculateTimeRemaining (Downloader.cpp lines 486-529) -/

/-- `2^32`, the modulus of the C++ `uint` that `difference` is stored in. -/
def UINT_MOD : Int := 4294967296

/-- `uint difference = now - m_startTime`: the `qint64` difference
converted to `uint` (reduction modulo `2^32`). -/
def ctrDifference (now startTime : Int) : Int := (now - startTime) % UINT_MOD

/-- Outcome of one `calculateTimeRemaining` call. -/
inductive CtrOutcome where
  /-- `difference > 0` failed: the whole update is skipped. -/
  | skipped
  /-- the guard passed but `received / difference` is `0`, so
  `(total - received) / (received / difference)` divides by zero. -/
  | divByZero
  /-- the `qint64` value assigned to `timeRemaining` (before unit
  selection). -/
  | update (timeRemaining : Int)
deriving Repr, DecidableEq

/-- `Downloader::calculateTimeRemaining`: only `difference > 0` is
checked; the expression `(total - received) / (received / difference)` is
evaluated in `qint64` arithmetic (truncating division), so a zero inner
quotient is an integer division by zero. -/
def calculateTimeRemaining (received total now startTime : Int) :
    CtrOutcome :=
  let difference := ctrDifference now startTime
  if difference > 0 then
    let rate := Int.tdiv received difference
    if rate = 0 then .divByZero
    else .update (Int.tdiv (total - received) rate)
  else .skipped

/-! ### Spec-side definitions

Definitions written from the specification's words, used to compare the
spec's description of filename resolution and size rendering with the
code's behaviour. -/

/-- Spec §4.2 step 2, quoted case: "if the following character is a quote,
take everything up to the matching closing quote"; when no closing quote
exists the value is left as is. -/
def specQuotedCut (v : List Char) : List Char :=
  match v with
  | '"' :: rest =>
    match charIndexOf rest '"' with
    | some k => rest.take k
    | none => v
  | _ => v

/-- The claim's unquoted rule, verbatim: "otherwise up to the first `;` or
first whitespace, whichever comes first". -/
def claimWhicheverCut (v : List Char) : List Char :=
  match charIndexOf v ';', charIndexOf v ' ' with
  | some p, some q => v.take (min p q)
  | some p, none => v.take p
  | none, some q => v.take q
  | none, none => v

/-- The amended unquoted rule: cut at the first `;` when one occurs
anywhere in the value, and only when there is no `;` at all cut at the
first space; a terminator in the very first position leaves the value
whole. -/
def specAmendedCut (v : List Char) : List Char :=
  match charIndexOf v ';' with
  | some p => if 0 < p then v.take p else v
  | none =>
    match charIndexOf v ' ' with
    | some q => if 0 < q then v.take q else v
    | none => v

/-- Filename resolution as the claim words it (with "whichever comes
first" for the unquoted case), followed by keeping only the final path
segment. -/
def claimResolveFilename (cd : List Char) : Option (List Char) :=
  match subIndexOf cd FILENAME_TOKEN with
  | none => none
  | some pos =>
    let v := cd.drop (pos + 9)
    some (lastPathSegment
      (if v.head? = some '"' then specQuotedCut v else claimWhicheverCut v))

/-- Filename resolution as the amended claim words it. -/
def specResolveFilename (cd : List Char) : Option (List Char) :=
  match subIndexOf cd FILENAME_TOKEN with
  | none => none
  | some pos =>
    let v := cd.drop (pos + 9)
    some (lastPathSegment
      (if v.head? = some '"' then specQuotedCut v else specAmendedCut v))

/-- The size mapping as the claim words it: counts below 1024 are bytes,
below 1048576 kilobytes "rounded half-up to 2 decimal places", larger
counts megabytes with the same rounding — rounding the exact rational
ratio. -/
def claimSizeValue (count : Int) : SizeUnit × ℚ :=
  if count < 1024 then (.bytes, (count : ℚ))
  else if count < 1048576 then (.kb, roundTwo ((count : ℚ) / 1024))
  else (.mb, roundTwo ((count : ℚ) / 1048576))

/-! ### Concrete states and inputs for witnesses and counterexamples -/

/-- A representative `Downloader` state: optional update, default install
procedure, a resolved filename, no open staging artifact. -/
def st0 : DState :=
  { urlId := "https://example.com/appcast"
    fileName := "update.bin".toList
    startTime := 0
    useCustomProcedures := false
    mandatoryUpdate := false
    downloadDir := "/home/user/Downloads"
    saveFile := none }

/-- A state whose filename was resolved from a first response, before a
redirect arrives. -/
def stOld : DState := { st0 with fileName := "old.bin".toList }

/-- A Content-Disposition value whose unquoted filename contains a space
before a later semicolon: the code cuts at the semicolon, the claim's
"whichever comes first" cuts at the space. -/
def CD_SPACE_SEMI : List Char := "attachment; filename=a b;c".toList

/-! ## Helper lemmas -/

/-- Rounding to two decimals is the identity on integers. -/
theorem roundTwo_intCast (n : ℤ) : roundTwo ((n : ℤ) : ℚ) = (n : ℚ) := by
  unfold roundTwo
  have h : ((n : ℚ) * 100) = ((n * 100 : ℤ) : ℚ) := by push_cast; ring
  rw [h, round_intCast]
  push_cast
  ring

/-- `finished` on a reply that ended with a transport error delivers no
event to the host, whatever the state. -/
theorem finished_error_no_host_event (st : DState) (desc : String) (b : Nat)
    (ok : Bool) :
    ((finished st ⟨some desc, b⟩ ok).2).filter isHostEvent = [] := by
  cases h : st.saveFile <;> simp [finished, h, isHostEvent]

/-! ## Claims -/

/-- C5 (code_bug): the claim says `calculateTimeRemaining` skips the update
whenever elapsed time or the received count is non-positive, so no division
by zero can occur.  The code only checks `difference > 0`: at
`received = 0, total = 100, now = 10, startTime = 0` the guard passes
(`difference = 10`) and `(total - received) / (received / difference)`
divides by zero; with `now = startTime` the update is indeed skipped. -/
theorem calculateTimeRemaining_unguarded_division :
    calculateTimeRemaining 0 100 10 0 = .divByZero
    ∧ calculateTimeRemaining 0 100 0 0 = .skipped
    ∧ ctrDifference 10 0 = 10 := by
  decide

/-- C7 (confirmed): `startDownload` on a state holding a staging artifact
discards it — `cancelWriting` then `delete`, strictly before the new
request is issued — and the new session starts with no open artifact. -/
theorem startDownload_discards_previous_artifact (st : DState) (f : SaveFile)
    (url : String) (now : Int) :
    startDownload { st with saveFile := some f } url now
      = ({ st with saveFile := none, startTime := now },
         [.uiReset, .cancelWriting, .deleteSaveFile, .issueRequest url,
          .ensureDownloadDir, .showUI]) := by
  simp [startDownload]

/-- C9 (corrected, counterexample): `setFileName` does not strip directory
components — the input `../secret` is stored verbatim, with a `/` in it,
so the stored name can be a path. -/
theorem setFileName_keeps_path :
    setFileNameCore "../secret".toList = "../secret".toList
    ∧ '/' ∈ setFileNameCore "../secret".toList := by
  decide

/-- C9 (amended): for every input, the stored filename is never empty
(empty results fall back to the default) and contains no quote and no
semicolon; directory components are not stripped here (the caller strips
them before invoking `setFileName`). -/
theorem setFileName_sanitizes (file : List Char) :
    setFileNameCore file ≠ []
    ∧ '"' ∉ setFileNameCore file
    ∧ ';' ∉ setFileNameCore file := by
  dsimp only [setFileNameCore]
  split
  · exact ⟨by decide, by decide, by decide⟩
  · rename_i h
    exact ⟨h, by simp [List.mem_filter], by simp [List.mem_filter]⟩

/-- C10 (confirmed): in `processReceivedData`, a failed open of the staging
file deletes the file object and drops the chunk with no host event and no
state change; the next data event simply retries the open, which on success
opens the artifact and writes the chunk — an open failure is never terminal
for the session. -/
theorem processReceivedData_open_failure_not_terminal (st : DState) (c : Char)
    (fn : List Char) (avail : Nat) (now : Int) :
    processReceivedData { st with fileName := c :: fn, saveFile := none }
        none false avail now
      = ({ st with fileName := c :: fn, saveFile := none },
         [.openFileCall, .warn "Failed to open file for writing",
          .deleteSaveFile])
    ∧ ((processReceivedData { st with fileName := c :: fn, saveFile := none }
          none false avail now).2.filter isHostEvent) = []
    ∧ processReceivedData { st with fileName := c :: fn, saveFile := none }
        none true avail now
      = ({ st with fileName := c :: fn, saveFile := some ⟨true, avail⟩ },
         [.openFileCall, .writeData avail]) := by
  refine ⟨?_, ?_, ?_⟩ <;> simp [processReceivedData, isHostEvent]

/-- C1 (confirmed): for every call to `finished` with an open staging
artifact, `commit()` is invoked exactly when the reply reports no error;
in every error state the artifact is discarded instead, no action touches
the final destination path, and commit and discard are mutually exclusive
— exactly one of the two happens, never both, never neither. -/
theorem finished_commit_iff_success (st : DState) (f : SaveFile) (r : Reply)
    (commitOk : Bool) :
    (Act.commitCall ∈ (finished { st with saveFile := some f } r commitOk).2
       ↔ r.error = none)
    ∧ (Act.cancelWriting ∈ (finished { st with saveFile := some f } r commitOk).2
       ↔ r.error ≠ none)
    ∧ ¬(Act.commitCall ∈ (finished { st with saveFile := some f } r commitOk).2
        ∧ Act.cancelWriting ∈ (finished { st with saveFile := some f } r commitOk).2)
    ∧ (r.error ≠ none →
       ∀ a ∈ (finished { st with saveFile := some f } r commitOk).2,
         touchesFinalPath a = false) := by
  obtain ⟨err, b⟩ := r
  cases err with
  | some desc =>
    simp [finished, touchesFinalPath]
  | none =>
    by_cases hb : b > 0 <;> by_cases ho : f.isOpen <;>
      by_cases hc : commitOk <;>
      simp [finished, hb, ho, hc]

/-- C1 witness: at a concrete state with an open artifact and an
error-free reply, `commit()` is invoked. -/
theorem finished_commit_iff_success_witness :
    Act.commitCall ∈ (finished { st0 with saveFile := some ⟨true, 50⟩ }
      ⟨none, 0⟩ true).2 := by
  exact (finished_commit_iff_success st0 ⟨true, 50⟩ ⟨none, 0⟩ true).1.mpr rfl

/-- C2 (confirmed): the cancellation matrix of `cancelDownload`.  Mandatory
and in flight: "Quit" hides the UI, aborts the transport and terminates
the process (exactly this trace, so the termination signal is raised
exactly once); "Continue" does nothing beyond the prompt.  Mandatory and
not in flight: the process is terminated with no confirmation prompt,
whatever the user would have answered.  Optional and in flight: "Yes"
hides the UI and aborts with no process exit; "No" does nothing beyond
the prompt.  Optional and not in flight: the UI is hidden and nothing
else happens.  Finally, an aborted transfer finishes with a transport
error, and `finished` on any errored reply emits no completion event, so
a confirmed cancellation never produces a completion event. -/
theorem cancelDownload_matrix (st : DState) (choice : Bool) :
    (cancelDownload { st with mandatoryUpdate := true } true true
       = [.promptUser, .hideUI, .abortReply, .exitProcess])
    ∧ (cancelDownload { st with mandatoryUpdate := true } true false
       = [.promptUser])
    ∧ (cancelDownload { st with mandatoryUpdate := true } false choice
       = [.hideUI, .exitProcess])
    ∧ (cancelDownload { st with mandatoryUpdate := false } true true
       = [.promptUser, .hideUI, .abortReply])
    ∧ (cancelDownload { st with mandatoryUpdate := false } true false
       = [.promptUser])
    ∧ (cancelDownload { st with mandatoryUpdate := false } false choice
       = [.hideUI])
    ∧ (∀ (st' : DState) (desc : String) (b : Nat) (ok : Bool),
        ((finished st' ⟨some desc, b⟩ ok).2).filter isHostEvent = []) := by
  refine ⟨?_, ?_, ?_, ?_, ?_, ?_, finished_error_no_host_event⟩ <;>
    simp [cancelDownload]

/-- C3 (corrected, counterexample): on a completion event with a transport
error, `finished` discards the staging artifact but emits no failure event
to the host — the whole trace at this concrete errored state is discard
plus a console warning, and contains no host event at all, contradicting
the claim that a failure event carrying the error description is emitted. -/
theorem finished_error_emits_nothing :
    finished { st0 with saveFile := some ⟨true, 50⟩ }
        ⟨some "Connection refused", 0⟩ true
      = ({ st0 with saveFile := none },
         [.cancelWriting, .deleteSaveFile,
          .warn "Download error: Connection refused"])
    ∧ ((finished { st0 with saveFile := some ⟨true, 50⟩ }
          ⟨some "Connection refused", 0⟩ true).2.filter isHostEvent) = [] := by
  decide

/-- C3 (amended): on a completion event with a transport error, `finished`
discards the staging artifact and returns after logging a console warning
that carries the transport error description; no event of any kind is
emitted to the host on this path. -/
theorem finished_error_discards_and_warns (st : DState) (f : SaveFile)
    (desc : String) (b : Nat) (ok : Bool) :
    finished { st with saveFile := some f } ⟨some desc, b⟩ ok
      = ({ st with saveFile := none },
         [.cancelWriting, .deleteSaveFile, .warn ("Download error: " ++ desc)])
    ∧ ((finished { st with saveFile := some f } ⟨some desc, b⟩ ok).2.filter
        isHostEvent) = [] := by
  exact ⟨by simp [finished], finished_error_no_host_event _ _ _ _⟩

/-- C6 (corrected, counterexample): after a redirect is processed, the
filename resolved from the original response is still in place — it is
not discarded — and if the new response carries no Content-Disposition
header it survives the whole redirected session, contradicting the claim
that it is re-resolved rather than carried over. -/
theorem redirect_carries_filename_over :
    ((processReceivedData stOld (some "https://mirror.example/new")
        true 0 5).1).fileName = "old.bin".toList
    ∧ metaDataChanged
        ((processReceivedData stOld (some "https://mirror.example/new")
           true 0 5).1) none
      = (processReceivedData stOld (some "https://mirror.example/new")
           true 0 5).1 := by
  decide

/-- C6 (amended): on a redirect response the session restarts against the
new location (`processReceivedData` defers to `startDownload`, which
issues the request to the new URL and discards any open staging
artifact), but the previously resolved filename is kept; it changes only
when the new response supplies a filename of its own. -/
theorem redirect_restarts_keeping_filename (st : DState) (u : String)
    (o : Bool) (a : Nat) (now : Int) :
    processReceivedData st (some u) o a now = startDownload st u now
    ∧ ((startDownload st u now).1).fileName = st.fileName
    ∧ ((startDownload st u now).1).saveFile = none
    ∧ Act.issueRequest u ∈ (startDownload st u now).2 := by
  refine ⟨rfl, rfl, rfl, ?_⟩
  cases h : st.saveFile <;> simp [startDownload, h]

/-- The value-slicing of `metaDataChanged` coincides with the spec-worded
quoted cut and the amended unquoted cut. -/
theorem cutFilenameValue_eq_spec (v : List Char) :
    cutFilenameValue v
      = (if v.head? = some '"' then specQuotedCut v else specAmendedCut v) := by
  cases v with
  | nil => simp [cutFilenameValue, specAmendedCut, charIndexOf]
  | cons c rest =>
    by_cases hc : c = '"'
    · subst hc
      simp only [cutFilenameValue, specQuotedCut, charIndexOfFrom,
        List.head?, List.drop_succ_cons, List.drop_zero, if_pos rfl]
      cases h : charIndexOf rest '"' with
      | none => simp [h]
      | some k => simp [h]
    · simp only [cutFilenameValue, specQuotedCut, specAmendedCut, List.head?,
        Option.some.injEq, hc, if_neg, if_false]
      cases h1 : charIndexOf (c :: rest) ';' <;>
        cases h2 : charIndexOf (c :: rest) ' ' <;> simp [h1, h2]

/-- C4 (corrected, counterexample): for the header
`attachment; filename=a b;c` the code cuts the unquoted value at the first
`;` even though a space comes earlier, resolving `a b`, while the claim's
"up to the first `;` or first whitespace, whichever comes first" rule
resolves `a` — the two disagree. -/
theorem filename_whichever_first_fails :
    extractDispositionFilename CD_SPACE_SEMI = some "a b".toList
    ∧ claimResolveFilename CD_SPACE_SEMI = some "a".toList
    ∧ extractDispositionFilename CD_SPACE_SEMI
        ≠ claimResolveFilename CD_SPACE_SEMI := by
  decide

/-- C4 (amended): the resolution algorithm of `metaDataChanged` extracts
a quoted value up to the matching closing quote; an unquoted value is cut
at the first `;` when one occurs anywhere, and only in the absence of any
`;` at the first space; then only the final path segment is kept.  In
particular `attachment; filename="a b.bin"` resolves to `a b.bin`,
`attachment; filename=report.csv; size=100` to `report.csv`, an absent
header leaves the current (default) filename, and `../secret` keeps only
`secret`. -/
theorem filenameResolution_amended :
    (∀ cd : List Char,
       extractDispositionFilename cd = specResolveFilename cd)
    ∧ (∀ st : DState, metaDataChanged st none = st)
    ∧ metaDataChanged st0 (some "attachment; filename=\"a b.bin\"".toList)
        = { st0 with fileName := "a b.bin".toList }
    ∧ metaDataChanged st0
        (some "attachment; filename=report.csv; size=100".toList)
        = { st0 with fileName := "report.csv".toList }
    ∧ metaDataChanged st0 (some "attachment; filename=../secret".toList)
        = { st0 with fileName := "secret".toList }
    ∧ metaDataChanged st0 (some CD_SPACE_SEMI)
        = { st0 with fileName := "a b".toList } := by
  refine ⟨?_, fun st => rfl, by decide, by decide, by decide, by decide⟩
  intro cd
  unfold extractDispositionFilename specResolveFilename
  cases h : subIndexOf cd FILENAME_TOKEN <;>
    simp [h, cutFilenameValue_eq_spec]

/-- C8 (corrected, counterexample): the kilobyte value is computed with a
truncating integer division before rounding — `total = 1536` renders as
`1 KB`, while the claim's half-up 2-decimal rounding of the exact ratio
yields `1.5 KB`. -/
theorem calculateSizes_truncates :
    calculateSizesTotal 1536 = (.kb, 1)
    ∧ claimSizeValue 1536 = (.kb, 3 / 2)
    ∧ calculateSizesTotal 1536 ≠ claimSizeValue 1536 := by
  have h1 : calculateSizesTotal 1536 = (.kb, 1) := by
    have ht : (Int.tdiv 1536 1024 : ℤ) = 1 := by decide
    unfold calculateSizesTotal
    rw [if_neg (by norm_num), if_pos (by norm_num), ht]
    have hr := roundTwo_intCast 1
    rw [hr]
    norm_num
  have h2 : claimSizeValue 1536 = (.kb, 3 / 2) := by
    have hv : ((1536 : ℤ) : ℚ) / 1024 = 3 / 2 := by norm_num
    have hm : ((3 : ℚ) / 2) * 100 = ((150 : ℤ) : ℚ) := by norm_num
    have hr : roundTwo (3 / 2 : ℚ) = 3 / 2 := by
      unfold roundTwo
      rw [hm, round_intCast]
      norm_num
    unfold claimSizeValue
    rw [if_neg (by norm_num), if_pos (by norm_num), hv, hr]
  refine ⟨h1, h2, ?_⟩
  rw [h1, h2]
  simp only [ne_eq, Prod.mk.injEq, not_and]
  intro _
  norm_num

/-- C8 (amended): counts below 1024 render as bytes, counts below
1048576 as kilobytes and larger counts as megabytes, but the KB/MB value
is the truncating integer quotient (`qint64` division by 1024 resp.
1048576); the 2-decimal half-up rounding is applied (to the total only)
after truncation, where it is the identity, so fractional parts are
lost.  A total of zero or unknown (negative) puts the progress bar in
indeterminate mode. -/
theorem calculateSizes_amended :
    (∀ t : Int, t < 1024 → calculateSizesTotal t = (.bytes, (t : ℚ)))
    ∧ (∀ t : Int, 1024 ≤ t → t < 1048576 →
        calculateSizesTotal t = (.kb, ((Int.tdiv t 1024 : Int) : ℚ)))
    ∧ (∀ t : Int, 1048576 ≤ t →
        calculateSizesTotal t = (.mb, ((Int.tdiv t 1048576 : Int) : ℚ)))
    ∧ (∀ r : Int, 1024 ≤ r → r < 1048576 →
        calculateSizesReceived r = (.kb, ((Int.tdiv r 1024 : Int) : ℚ)))
    ∧ (∀ r : Int, 1048576 ≤ r →
        calculateSizesReceived r = (.mb, ((Int.tdiv r 1048576 : Int) : ℚ)))
    ∧ (∀ r t : Int, t ≤ 0 → updateProgress r t = none)
    ∧ (∀ r t : Int, 0 < t →
        updateProgress r t = some (Int.tdiv (r * 100) t)) := by
  refine ⟨?_, ?_, ?_, ?_, ?_, ?_, ?_⟩
  · intro t h; simp [calculateSizesTotal, h]
  · intro t h1 h2
    simp [calculateSizesTotal, not_lt.2 h1, h2, roundTwo_intCast]
  · intro t h1
    have h0 : (1024 : ℤ) ≤ 1048576 := by norm_num
    simp [calculateSizesTotal, not_lt.2 h1, not_lt.2 (h0.trans h1),
      roundTwo_intCast]
  · intro r h1 h2
    simp [calculateSizesReceived, not_lt.2 h1, h2]
  · intro r h1
    have h0 : (1024 : ℤ) ≤ 1048576 := by norm_num
    simp [calculateSizesReceived, not_lt.2 h1, not_lt.2 (h0.trans h1)]
  · intro r t h; simp [updateProgress, not_lt.2 h]
  · intro r t h; simp [updateProgress, h]

/-- C8 witness: the KB branch at the concrete total 1536. -/
theorem calculateSizes_amended_witness :
    calculateSizesTotal 1536 = (.kb, ((Int.tdiv 1536 1024 : Int) : ℚ)) :=
  calculateSizes_amended.2.1 1536 (by norm_num) (by norm_num)

/-- C9 witness: the sanitization guarantees at a concrete input. -/
theorem setFileName_sanitizes_witness :
    setFileNameCore "a".toList ≠ []
    ∧ '"' ∉ setFileNameCore "a".toList
    ∧ ';' ∉ setFileNameCore "a".toList :=
  setFileName_sanitizes "a".toList

end Downloader
